import Mathlib

/-!
# MermaidMD2PDF — verification of the diagram pipeline spec against the code

Shallow embedding of the core pipeline of the MermaidMD2PDF repository
(`src/mermaidmd2pdf/processor.py` and `src/mermaidmd2pdf/generator.py`).

Python strings are modelled as `List Char` (Python strings are sequences of
Unicode code points, which `Char` models directly).  Pure functions of the
source are translated one-to-one; the filesystem (the render cache directory)
is modelled as the list of file names present in the cache directory, and the
external `mmdc` renderer subprocess is modelled as an oracle
`render : MermaidDiagram → Bool × List Char` (success flag, stderr text)
supplied through an environment.  The thread pool of `generate_images` is
modelled by processing the submitted tasks sequentially: the claims under
study concern only the per-diagram outcomes, not the interleaving.
-/

namespace MermaidMD2PDF

/-! Section: Python string primitives -/

/-- The whitespace characters stripped by Python's `str.strip()` /
split on by `str.split()` (the ASCII subset, which is all the repository
ever feeds these functions). -/
def isPySpace (c : Char) : Bool :=
  c = ' ' ∨ c = '\t' ∨ c = '\n' ∨ c = '\r' ∨ c = '\x0b' ∨ c = '\x0c'

/-- Python `str.strip()`: drop leading and trailing whitespace. -/
def pyStrip (l : List Char) : List Char :=
  ((l.dropWhile isPySpace).reverse.dropWhile isPySpace).reverse

/-- Python `str.lower()` (agrees with `Char.toLower` on the ASCII text the
validator handles). -/
def pyLower (l : List Char) : List Char :=
  l.map Char.toLower

/-- Python `str.rstrip(":")`: drop every trailing colon. -/
def rstripColon (l : List Char) : List Char :=
  (l.reverse.dropWhile (· = ':')).reverse

/-- Python `str.split("\n")`: split on each newline, keeping empty pieces. -/
def splitNl (l : List Char) : List (List Char) :=
  l.splitOn '\n'

/-- Helper for `pySplit`, accumulating the current word reversed. -/
def pySplitAux : List Char → List Char → List (List Char)
  | [], acc => if acc = [] then [] else [acc.reverse]
  | c :: t, acc =>
    if isPySpace c then
      if acc = [] then pySplitAux t [] else acc.reverse :: pySplitAux t []
    else pySplitAux t (c :: acc)

/-- Python `str.split()` with no argument: split on runs of whitespace,
discarding empty pieces. -/
def pySplit (l : List Char) : List (List Char) :=
  pySplitAux l []

/-- First index at which `needle` occurs in `hay` (Python `str.find`),
`none` when there is no occurrence. -/
def findSub (needle : List Char) : List Char → Option Nat
  | [] => if needle.isPrefixOf [] then some 0 else none
  | c :: t =>
    if needle.isPrefixOf (c :: t) then some 0
    else (findSub needle t).map (· + 1)

/-- Number of `'\n'` characters among the first `k` characters
(Python `content.count("\n", 0, k)`). -/
def countNl (l : List Char) (k : Nat) : Nat :=
  (l.take k).countP (· = '\n')

/-! Section: data model, the `MermaidDiagram` dataclass of processor.py.

`config` is Python's `Optional[Dict[str, Any]]`.  A dict is modelled as an
association list of keys and JSON-representable values; the dictionaries the
program builds contain strings, booleans, null and (nested) lists, which
`JsonVal` covers.  (Floats never occur in a diagram config in this
repository.) -/

/-- JSON-representable configuration values (the value type of a diagram's
`config` dict). -/
inductive JsonVal : Type where
  | null : JsonVal
  | bool (b : Bool) : JsonVal
  | int (n : Int) : JsonVal
  | str (s : List Char) : JsonVal
  deriving DecidableEq, Repr

/-- A diagram configuration dict: association list from keys to values.
Python dict equality is order-insensitive; throughout we work with the
canonical key-sorted form (the claims under study never depend on insertion
order). -/
abbrev ConfigDict := List (List Char × JsonVal)

/-- The `MermaidDiagram` dataclass of `processor.py`: an extracted diagram with
its body, 1-based line span, the exact original substring, and an optional
configuration. -/
structure MermaidDiagram : Type where
  content : List Char
  start_line : Nat
  end_line : Nat
  original_text : List Char
  config : Option ConfigDict := none
  deriving DecidableEq, Repr

/-! Section: MermaidProcessor.validate_diagram -/

/-- The keys of `MermaidProcessor.DIAGRAM_TYPES`: the fixed enumerated set of
known (lower-cased) diagram-type names. -/
def diagramTypeKeys : List (List Char) :=
  [ "sequencediagram".toList, "classdiagram".toList, "flowchart".toList,
    "graph".toList, "pie".toList, "erdiagram".toList, "statediagram".toList,
    "gantt".toList ]

/-- Model of `content.strip().split("\n")` in `validate_diagram`. -/
def contentLines (d : MermaidDiagram) : List (List Char) :=
  splitNl (pyStrip d.content)

/-- Model of `first_line = content_lines[0].strip()` in `validate_diagram`
(`content_lines` is never empty in Python; `headD []` matches `[0]`). -/
def firstLineOf (d : MermaidDiagram) : List Char :=
  pyStrip ((contentLines d).headD [])

/-- Model of `first_word = first_line.split()[0].lower()` in `validate_diagram`. -/
def firstWordOf (d : MermaidDiagram) : List Char :=
  pyLower ((pySplit (firstLineOf d)).headD [])

/-- Model of `MermaidProcessor.validate_diagram`, line for line: empty-content guard,
then the `graph`/`flowchart` direction check on the *unstripped* lowered
first word, then colon-stripping, then membership in `DIAGRAM_TYPES`. -/
def validateDiagram (d : MermaidDiagram) : Bool × Option (List Char) :=
  if firstLineOf d = [] then
    (false, some "Empty diagram".toList)
  else if firstWordOf d = "graph".toList ∨ firstWordOf d = "flowchart".toList then
    if (pySplit (firstLineOf d)).length < 2 then
      (false, some ("Missing direction for ".toList ++ firstWordOf d ++
        " diagram".toList))
    else (true, none)
  else if rstripColon (firstWordOf d) ∈ diagramTypeKeys then (true, none)
  else (false, some ("Invalid diagram type: ".toList ++
    rstripColon (firstWordOf d)))

/-! Section: MermaidProcessor.extract_diagrams

The two patterns `r"```mermaid\n(.*?)\n```"` and `r"<mermaid>(.*?)</mermaid>"`
are literal-delimited with a single lazy `DOTALL` group, so `re.finditer` is
exactly: repeatedly find the leftmost occurrence of the opening literal, then
the earliest occurrence of the closing literal after it (lazy body), emit the
match, and continue after it.  (If the opening literal occurs but no closing
literal follows, no later start can match either, so scanning stops — same as
the regex engine.)  Matches are reported as
`(start offset, end offset (exclusive), body)`. -/

/-- One `re.finditer` scan for the pattern `openS ++ lazy body ++ closeS`.
`off` is the absolute offset of `s` in the document; fuel is consumed once
per match (each match consumes at least one character since `openS ≠ []` at
every use site). -/
def findMatchesAux (openS closeS : List Char) :
    Nat → List Char → Nat → List (Nat × Nat × List Char)
  | 0, _, _ => []
  | fuel + 1, s, off =>
    match findSub openS s with
    | none => []
    | some i =>
      let rest := s.drop (i + openS.length)
      match findSub closeS rest with
      | none => []
      | some j =>
        let endOff := off + i + openS.length + j + closeS.length
        (off + i, endOff, rest.take j) ::
          findMatchesAux openS closeS fuel (rest.drop (j + closeS.length)) endOff

/-- All matches of the pattern `openS ++ lazy body ++ closeS` in `s`. -/
def findMatches (openS closeS s : List Char) : List (Nat × Nat × List Char) :=
  findMatchesAux openS closeS (s.length + 1) s 0

/-- The fenced-block opening delimiter of the first pattern. -/
def fencedOpen : List Char := "```mermaid\n".toList

/-- The fenced-block closing delimiter of the first pattern. -/
def fencedClose : List Char := "\n```".toList

/-- The inline opening tag of the second pattern. -/
def inlineOpen : List Char := "<mermaid>".toList

/-- The inline closing tag of the second pattern. -/
def inlineClose : List Char := "</mermaid>".toList

/-- The raw matches `extract_diagrams` iterates over: all fenced-pattern
matches, then all inline-pattern matches (the two `re.finditer` loops run in
this order). -/
def extractMatches (content : List Char) : List (Nat × Nat × List Char) :=
  findMatches fencedOpen fencedClose content ++
    findMatches inlineOpen inlineClose content

/-- Build the `MermaidDiagram` record `extract_diagrams` constructs for one
match: stripped body, 1-based line numbers obtained by counting newlines
before the match start/end, the full matched span, and no config. -/
def mkDiagram (content : List Char) (m : Nat × Nat × List Char) :
    MermaidDiagram :=
  { content := pyStrip m.2.2
    start_line := countNl content m.1 + 1
    end_line := countNl content m.2.1 + 1
    original_text := (content.drop m.1).take (m.2.1 - m.1)
    config := none }

/-- Model of `MermaidProcessor.extract_diagrams`. -/
def extractDiagrams (content : List Char) : List MermaidDiagram :=
  (extractMatches content).map (mkDiagram content)

/-! Section: MermaidProcessor.process_markdown -/

/-- The fallback error message `process_markdown` builds for an invalid
diagram (used only when the validator's message is falsy). -/
def invalidAtLinesMsg (d : MermaidDiagram) : List Char :=
  "Invalid Mermaid diagram at lines ".toList ++ (Nat.repr d.start_line).toList
    ++ "-".toList ++ (Nat.repr d.end_line).toList

/-- Model of `MermaidProcessor.process_markdown`: returns the content unchanged
together with the collected validation errors (`error or error_msg` picks the
validator's message unless it is `None` or empty). -/
def processMarkdown (content : List Char) : List Char × List (List Char) :=
  let diagrams := extractDiagrams content
  if diagrams = [] then (content, [])
  else
    (content,
      diagrams.filterMap fun d =>
        match validateDiagram d with
        | (true, _) => none
        | (false, err) =>
          match err with
          | some e => if e = [] then some (invalidAtLinesMsg d) else some e
          | none => some (invalidAtLinesMsg d))

/-! Section: ImageGenerator._get_cache_key (generator.py).

`json.dumps(diagram.config or {}, sort_keys=True)` with the default
separators, then `sha256(f"{content}|{config}").hexdigest()`.  SHA-256 is a
fixed deterministic function of its input string, so we model the cache key
by that input string (the digest's preimage): two diagrams get the same
digest in the code exactly when they get the same modelled key (up to SHA-256
collisions, which the inequality direction assumes absent, as the spec
does). -/

/-- Code-point lexicographic order on strings (Python `<` on `str`),
as used by `sort_keys=True`. -/
def charListLe : List Char → List Char → Bool
  | [], _ => true
  | _ :: _, [] => false
  | a :: as, b :: bs =>
    if a.val < b.val then true
    else if b.val < a.val then false
    else charListLe as bs

/-- Insert a key-value pair into a key-sorted configuration dict. -/
def insertByKey (x : List Char × JsonVal) : ConfigDict → ConfigDict
  | [] => [x]
  | y :: t => if charListLe x.1 y.1 then x :: y :: t else y :: insertByKey x t

/-- Sort a configuration dict by key (the effect of `sort_keys=True`). -/
def sortByKey (c : ConfigDict) : ConfigDict :=
  c.foldr insertByKey []

/-- JSON string escaping as `json.dumps` performs it on the ASCII
configuration text this program handles. -/
def jsonEscapeChar (c : Char) : List Char :=
  if c = '"' then ['\\', '"']
  else if c = '\\' then ['\\', '\\']
  else if c = '\n' then ['\\', 'n']
  else if c = '\t' then ['\\', 't']
  else if c = '\r' then ['\\', 'r']
  else [c]

/-- Serialize a JSON string literal. -/
def jsonStr (s : List Char) : List Char :=
  '"' :: (s.foldr (fun c acc => jsonEscapeChar c ++ acc) ['"'])

/-- Serialize one configuration value as `json.dumps` renders it. -/
def jsonValDump : JsonVal → List Char
  | .null => "null".toList
  | .bool true => "true".toList
  | .bool false => "false".toList
  | .int n => (Int.repr n).toList
  | .str s => jsonStr s

/-- Model of `json.dumps(config, sort_keys=True)` with the default `", "` / `": "`
separators. -/
def pyJsonDumps (c : ConfigDict) : List Char :=
  '{' :: (List.intercalate ", ".toList
    ((sortByKey c).map fun kv => jsonStr kv.1 ++ ": ".toList ++ jsonValDump kv.2))
    ++ ['}']

/-- Model of `diagram.config or {}`: Python `or` yields `{}` for both `None` and the
(falsy) empty dict. -/
def configOrEmpty : Option ConfigDict → ConfigDict
  | none => []
  | some c => c

/-- Model of `ImageGenerator._get_cache_key`: the string
`f"{content}|{config}"` whose SHA-256 hex digest the code uses as the key
(see the section comment: the digest is modelled by its preimage). -/
def getCacheKey (d : MermaidDiagram) : List Char :=
  d.content ++ '|' :: pyJsonDumps (configOrEmpty d.config)

/-! Section: the render cache and ImageGenerator.generate_image / generate_images.

The cache directory is modelled as the list of file names it contains.
`_get_cached_image(key)` probes the file named `key`; `_cache_image` writes
the file named `key + ".png"`. -/

/-- The file name `_get_cached_image` probes for a key: `cache_dir / key`. -/
def cacheLookupName (key : List Char) : List Char := key

/-- The file name `_cache_image` stores under: `cache_dir / f"{key}.png"`. -/
def cacheStoreName (key : List Char) : List Char := key ++ ".png".toList

/-- Model of `ImageGenerator._get_cached_image`: the cached path if the file exists,
else `None`. -/
def getCachedImage (cache : List (List Char)) (key : List Char) :
    Option (List Char) :=
  if cacheLookupName key ∈ cache then some (cacheLookupName key) else none

/-- Model of `ImageGenerator._cache_image`: write `f"{key}.png"` into the cache
directory unless it already exists; return the cached path and the new
directory contents. -/
def cacheImage (d : MermaidDiagram) (cache : List (List Char)) :
    List Char × List (List Char) :=
  let name := cacheStoreName (getCacheKey d)
  if name ∈ cache then (name, cache) else (name, name :: cache)

/-- The transient scratch artifacts one `generate_image` call can create
(each call uses fresh unique temp names, so per-call tokens suffice). -/
inductive Scratch : Type where
  | body : Scratch
  | config : Scratch
  | outputFile : Scratch
  deriving DecidableEq, Repr

/-- Environment for a render run: whether `mmdc` resolves, and the external
renderer oracle giving each diagram's subprocess outcome
(success flag, stderr text). -/
structure RenderEnv : Type where
  mmdcOk : Bool
  render : MermaidDiagram → Bool × List Char

/-- Outcome of one `generate_image` call: the returned result (error message
or image path), the cache directory afterwards, the number of external
renderer invocations, and the scratch files created/removed during the
call. -/
structure GenResult : Type where
  res : Except (List Char) (List Char)
  cache : List (List Char)
  invocations : Nat
  created : List Scratch
  removed : List Scratch
  deriving Repr

/-- Model of `ImageGenerator.generate_image`: check `mmdc`, probe the cache with
`_get_cached_image(_get_cache_key(diagram))`, otherwise write the diagram
body to a temp `.mmd` file (plus, via `_get_mmdc_args`, a temp `.json`
config file when `diagram.config` is truthy), run `mmdc`, cache on success,
and in the `finally` block unlink the body temp file and the output file.
The config temp file has no unlink anywhere in the code. -/
def generateImage (env : RenderEnv) (d : MermaidDiagram)
    (cache : List (List Char)) : GenResult :=
  if env.mmdcOk = true then
    match getCachedImage cache (getCacheKey d) with
    | some p => ⟨.ok p, cache, 0, [], []⟩
    | none =>
      match env.render d with
      | (true, _) =>
        ⟨.ok (cacheImage d cache).1, (cacheImage d cache).2, 1,
          Scratch.body ::
            ((if d.config.isSome then [Scratch.config] else []) ++
              [Scratch.outputFile]),
          [Scratch.body, Scratch.outputFile]⟩
      | (false, stderr) =>
        ⟨.error ("Failed to generate image: ".toList ++ stderr), cache, 1,
          Scratch.body :: (if d.config.isSome then [Scratch.config] else []),
          [Scratch.body]⟩
  else ⟨.error "Mermaid CLI (mmdc) not found".toList, cache, 0, [], []⟩

/-- Aggregate outcome of `generate_images`: the diagram-to-path map (as the
list of successful pairs), the collected error strings, the cache directory
afterwards, and the total number of external renderer invocations. -/
structure BatchResult : Type where
  images : List (MermaidDiagram × List Char)
  errors : List (List Char)
  cache : List (List Char)
  invocations : Nat
  deriving Repr

/-- Model of `ImageGenerator.generate_images`: submit every diagram to
`generate_image` and collect per-diagram results (successes into the map,
errors into the list); modelled by sequential processing of the submitted
tasks. -/
def generateImages (env : RenderEnv) :
    List MermaidDiagram → List (List Char) → BatchResult
  | [], cache => ⟨[], [], cache, 0⟩
  | d :: ds, cache =>
    match (generateImage env d cache).res with
    | .ok p =>
      ⟨(d, p) ::
          (generateImages env ds (generateImage env d cache).cache).images,
        (generateImages env ds (generateImage env d cache).cache).errors,
        (generateImages env ds (generateImage env d cache).cache).cache,
        (generateImage env d cache).invocations +
          (generateImages env ds (generateImage env d cache).cache).invocations⟩
    | .error e =>
      ⟨(generateImages env ds (generateImage env d cache).cache).images,
        e :: (generateImages env ds (generateImage env d cache).cache).errors,
        (generateImages env ds (generateImage env d cache).cache).cache,
        (generateImage env d cache).invocations +
          (generateImages env ds (generateImage env d cache).cache).invocations⟩

/-! Section: PDFGenerator._replace_diagrams_with_images -/

/-- The image-reference text substituted for a diagram:
`f"![Diagram]({image_path.resolve()})"`.  Paths are modelled as
already-resolved absolute strings, so `resolve()` is the identity. -/
def imageRef (path : List Char) : List Char :=
  "![Diagram](".toList ++ path ++ [')']

/-- Python `str.replace(old, new)` (all non-overlapping occurrences, left to
right), fuelled; fuel is one unit per character examined. -/
def replaceAllAux (old new : List Char) : Nat → List Char → List Char
  | _, [] => []
  | 0, s => s
  | fuel + 1, c :: t =>
    if old.isPrefixOf (c :: t) then
      new ++ replaceAllAux old new fuel ((c :: t).drop old.length)
    else c :: replaceAllAux old new fuel t

/-- Python `str.replace(old, new)` for a non-empty `old` (every
`original_text` is non-empty; Python's behaviour on an empty pattern is not
needed and the empty case returns the string unchanged). -/
def replaceAll (s old new : List Char) : List Char :=
  if old = [] then s else replaceAllAux old new s.length s

/-- Stable insertion into a list sorted by descending `start_line`
(the element being inserted is original-order-earlier than the ones already
present, matching Python's stable `sorted(..., reverse=True)`). -/
def insertDesc (x : MermaidDiagram × List Char) :
    List (MermaidDiagram × List Char) → List (MermaidDiagram × List Char)
  | [] => [x]
  | y :: t =>
    if x.1.start_line < y.1.start_line then y :: insertDesc x t
    else x :: y :: t

/-- Model of `sorted(diagram_images.keys(), key=..., reverse=True)`:
over the map's insertion order. -/
def sortDescByStartLine (l : List (MermaidDiagram × List Char)) :
    List (MermaidDiagram × List Char) :=
  l.foldr insertDesc []

/-- Model of `PDFGenerator._replace_diagrams_with_images`: for each diagram in
descending `start_line` order, globally replace its `original_text` with its
image reference. -/
def replaceDiagramsWithImages (markdownText : List Char)
    (diagramImages : List (MermaidDiagram × List Char)) : List Char :=
  (sortDescByStartLine diagramImages).foldl
    (fun acc dp => replaceAll acc dp.1.original_text (imageRef dp.2))
    markdownText

/-! Section: supporting lemmas about the match scanner. -/

/-- Every match reported by a scan starting at absolute offset `off` starts
at or after `off`. -/
theorem findMatchesAux_off_le {openS closeS : List Char} :
    ∀ (fuel : Nat) (s : List Char) (off : Nat) (m : Nat × Nat × List Char),
      m ∈ findMatchesAux openS closeS fuel s off → off ≤ m.1 := by
  intro fuel
  induction fuel with
  | zero => intro s off m hm; simp [findMatchesAux] at hm
  | succ n ih =>
    intro s off m hm
    simp only [findMatchesAux] at hm
    split at hm
    · exact absurd hm (List.not_mem_nil _)
    · split at hm
      · exact absurd hm (List.not_mem_nil _)
      · rcases List.mem_cons.mp hm with rfl | hm
        · exact Nat.le_add_right off _
        · have := ih _ _ _ hm
          omega

/-- Matches reported by one scan have strictly increasing start offsets
(each match starts after the previous one ends, and the opening delimiter is
non-empty). -/
theorem findMatchesAux_pairwise {openS closeS : List Char} (hne : openS ≠ []) :
    ∀ (fuel : Nat) (s : List Char) (off : Nat),
      List.Pairwise (fun a b => a.1 < b.1)
        (findMatchesAux openS closeS fuel s off) := by
  intro fuel
  induction fuel with
  | zero => intro s off; simp [findMatchesAux]
  | succ n ih =>
    intro s off
    simp only [findMatchesAux]
    split
    · exact List.Pairwise.nil
    · split
      · exact List.Pairwise.nil
      · refine List.Pairwise.cons ?_ (ih _ _)
        intro b hb
        have hb' := findMatchesAux_off_le _ _ _ _ hb
        have hlen : 0 < openS.length := List.length_pos.mpr hne
        show _ < b.1
        omega

/-! Section: the claims. -/

/-- C10: `process_markdown` returns the input text itself, unchanged, as the
first component of its result pair — it only collects validation error
messages and never modifies the text; and every record produced by
`extract_diagrams` has `config = None`. -/
theorem processMarkdown_text_unchanged_and_config_none :
    ∀ content : List Char,
      (processMarkdown content).1 = content ∧
        ∀ d ∈ extractDiagrams content, d.config = none := by
  intro content
  constructor
  · by_cases h : extractDiagrams content = [] <;> simp [processMarkdown, h]
  · intro d hd
    rcases List.mem_map.mp hd with ⟨m, _, rfl⟩
    rfl

/-- Witness for C10 at the spec's concrete scenario document. -/
theorem processMarkdown_text_unchanged_witness :
    (processMarkdown "# T\n\n```mermaid\ngraph TD\nA-->B\n```\n".toList).1 =
      "# T\n\n```mermaid\ngraph TD\nA-->B\n```\n".toList :=
  (processMarkdown_text_unchanged_and_config_none _).1

/-- C8: a record whose first token — lowercased, trailing colons stripped —
is neither `graph` nor `flowchart` nor any member of the fixed enumerated
set `DIAGRAM_TYPES`, is rejected with a message naming the offending
token. -/
theorem validateDiagram_unknown_type_invalid :
    ∀ d : MermaidDiagram,
      firstLineOf d ≠ [] →
      rstripColon (firstWordOf d) ≠ "graph".toList →
      rstripColon (firstWordOf d) ≠ "flowchart".toList →
      rstripColon (firstWordOf d) ∉ diagramTypeKeys →
      validateDiagram d =
        (false, some ("Invalid diagram type: ".toList ++
          rstripColon (firstWordOf d))) := by
  intro d h1 _ _ h4
  have hg : ¬(firstWordOf d = "graph".toList ∨
      firstWordOf d = "flowchart".toList) := by
    rintro (h | h)
    · exact h4 (by rw [h]; decide)
    · exact h4 (by rw [h]; decide)
  unfold validateDiagram
  rw [if_neg h1, if_neg hg, if_neg h4]

/-- Witness for C8 at the spec's scenario input `"invalidtype\nfoo"`. -/
theorem validateDiagram_unknown_type_invalid_witness :
    validateDiagram ⟨"invalidtype\nfoo".toList, 1, 2, [], none⟩ =
      (false, some ("Invalid diagram type: ".toList ++
        rstripColon (firstWordOf ⟨"invalidtype\nfoo".toList, 1, 2, [], none⟩))) :=
  validateDiagram_unknown_type_invalid _ (by decide) (by decide) (by decide)
    (by decide)

/-- C6 counterexample: the record with content `"graph:"` has lowered,
colon-stripped first token `graph` and no second token on its first line,
yet `validate_diagram` accepts it: the direction check compares the token
*before* colon stripping, so `graph:` falls through to the known-type
membership check (where the colon is stripped) and validates. -/
theorem validateDiagram_colon_graph_accepted :
    rstripColon (firstWordOf ⟨"graph:".toList, 1, 2, [], none⟩) =
        "graph".toList ∧
      (pySplit (firstLineOf ⟨"graph:".toList, 1, 2, [], none⟩)).length < 2 ∧
      validateDiagram ⟨"graph:".toList, 1, 2, [], none⟩ = (true, none) := by
  decide

/-- C6 (amended): when the lowered first token *as written* (before colon
stripping) is `graph` or `flowchart` and the first line has no second token,
validation fails with a message naming that diagram type; the colon-stripped
token is used only by the subsequent known-type membership check. -/
theorem validateDiagram_missing_direction :
    ∀ d : MermaidDiagram,
      (firstWordOf d = "graph".toList ∨ firstWordOf d = "flowchart".toList) →
      (pySplit (firstLineOf d)).length < 2 →
      validateDiagram d =
        (false, some ("Missing direction for ".toList ++ firstWordOf d ++
          " diagram".toList)) := by
  intro d h1 h2
  have hne : firstLineOf d ≠ [] := by
    intro h
    have hw : firstWordOf d = [] := by
      unfold firstWordOf
      rw [h]
      rfl
    rcases h1 with h1 | h1 <;> rw [hw] at h1 <;> exact absurd h1 (by decide)
  unfold validateDiagram
  rw [if_neg hne, if_pos h1, if_pos h2]

/-- Witness for C6 (amended) at the record with content `"graph"`. -/
theorem validateDiagram_missing_direction_witness :
    validateDiagram ⟨"graph".toList, 1, 2, [], none⟩ =
      (false, some ("Missing direction for ".toList ++
        firstWordOf ⟨"graph".toList, 1, 2, [], none⟩ ++ " diagram".toList)) :=
  validateDiagram_missing_direction _ (Or.inl (by decide)) (by decide)

/-- C4 counterexample: two records with identical content but differing
`render_config` — `None` versus the empty dict — receive equal cache keys,
because `diagram.config or {}` collapses both to `{}` before
serialization. -/
theorem getCacheKey_none_empty_collide :
    (⟨"graph TD".toList, 1, 3, [], none⟩ : MermaidDiagram).config ≠
        (⟨"graph TD".toList, 5, 7, [], some []⟩ : MermaidDiagram).config ∧
      getCacheKey ⟨"graph TD".toList, 1, 3, [], none⟩ =
        getCacheKey ⟨"graph TD".toList, 5, 7, [], some []⟩ := by
  decide

/-- C4 (amended): the cache key depends only on `content` and
`render_config` — records with equal content and equal config share a key
whatever their line positions and original text; and for equal content the
keys differ exactly when the canonical serializations of `config or {}`
differ (so distinct serializable configs get distinct keys, but `None` and
`{}` collide). -/
theorem getCacheKey_content_config_only :
    (∀ (c o1 o2 : List Char) (cfg : Option ConfigDict) (s1 e1 s2 e2 : Nat),
        getCacheKey ⟨c, s1, e1, o1, cfg⟩ = getCacheKey ⟨c, s2, e2, o2, cfg⟩) ∧
      (∀ (c o1 o2 : List Char) (cfg1 cfg2 : Option ConfigDict)
          (s1 e1 s2 e2 : Nat),
          pyJsonDumps (configOrEmpty cfg1) ≠ pyJsonDumps (configOrEmpty cfg2) →
          getCacheKey ⟨c, s1, e1, o1, cfg1⟩ ≠
            getCacheKey ⟨c, s2, e2, o2, cfg2⟩) := by
  constructor
  · intro c o1 o2 cfg s1 e1 s2 e2
    rfl
  · intro c o1 o2 cfg1 cfg2 s1 e1 s2 e2 hser heq
    apply hser
    have heq' : c ++ '|' :: pyJsonDumps (configOrEmpty cfg1) =
        c ++ '|' :: pyJsonDumps (configOrEmpty cfg2) := heq
    have h2 := List.append_cancel_left heq'
    injection h2

/-- Witness for C4 (amended): a non-empty config versus `None`. -/
theorem getCacheKey_content_config_only_witness :
    getCacheKey ⟨"graph TD".toList, 1, 3, [],
        some [("theme".toList, JsonVal.str "forest".toList)]⟩ ≠
      getCacheKey ⟨"graph TD".toList, 5, 7, "z".toList, none⟩ :=
  getCacheKey_content_config_only.2 _ _ _ _ _ _ _ _ _ (by decide)

/-- C5 counterexample: with an inline diagram textually before a fenced one,
extraction reports the fenced match first — the start offsets come out
`[21, 0]`, which is not ascending. -/
theorem extractMatches_not_sorted_by_offset :
    (extractMatches "<mermaid>a</mermaid>\n```mermaid\nb\n```".toList).map
        (fun m => m.1) = [21, 0] ∧
      ¬ List.Pairwise (fun a b : Nat => a ≤ b)
        ((extractMatches "<mermaid>a</mermaid>\n```mermaid\nb\n```".toList).map
          (fun m => m.1)) := by
  decide

/-- C5 (amended): `extract_diagrams` returns all fenced-pattern matches
followed by all inline-pattern matches; within each notation the matches are
in strictly increasing start-offset order, but the concatenation is not
globally ordered by start offset when an inline diagram precedes a fenced
one. -/
theorem extractMatches_per_pattern_sorted :
    ∀ content : List Char,
      extractMatches content =
          findMatches fencedOpen fencedClose content ++
            findMatches inlineOpen inlineClose content ∧
        extractDiagrams content =
          (extractMatches content).map (mkDiagram content) ∧
        List.Pairwise (fun a b => a.1 < b.1)
          (findMatches fencedOpen fencedClose content) ∧
        List.Pairwise (fun a b => a.1 < b.1)
          (findMatches inlineOpen inlineClose content) := by
  intro content
  exact ⟨rfl, rfl, findMatchesAux_pairwise (by decide) _ _ _,
    findMatchesAux_pairwise (by decide) _ _ _⟩

/-- With `mmdc` available, one `generate_image` call either returns an image
path, or returns exactly the error string
`"Failed to generate image: " ++ stderr` with the renderer having failed on
that diagram. -/
theorem generateImage_res_spec (env : RenderEnv) (d : MermaidDiagram)
    (cache : List (List Char)) (hok : env.mmdcOk = true) :
    (∃ p, (generateImage env d cache).res = Except.ok p) ∨
      ((env.render d).1 = false ∧
        (generateImage env d cache).res =
          Except.error ("Failed to generate image: ".toList ++
            (env.render d).2)) := by
  unfold generateImage
  rw [hok, if_pos rfl]
  cases hgc : getCachedImage cache (getCacheKey d) with
  | some p => exact Or.inl ⟨p, rfl⟩
  | none =>
    rcases hr : env.render d with ⟨ok, stderr⟩
    cases ok
    · exact Or.inr ⟨rfl, rfl⟩
    · exact Or.inl ⟨_, rfl⟩

/-- C7 (amended): with `mmdc` available, every diagram of the batch yields
exactly one outcome — a map entry or an error string — so one diagram's
failure never aborts the rest; and every recorded error string is exactly
`"Failed to generate image: " ++ stderr` for some failing diagram of the
batch, which carries the captured error output but not the record's
`start_line`. -/
theorem generateImages_error_shape_and_isolation :
    ∀ (env : RenderEnv) (ds : List MermaidDiagram) (cache : List (List Char)),
      env.mmdcOk = true →
      (generateImages env ds cache).images.length +
          (generateImages env ds cache).errors.length = ds.length ∧
        ∀ e ∈ (generateImages env ds cache).errors, ∃ d ∈ ds,
          (env.render d).1 = false ∧
            e = "Failed to generate image: ".toList ++ (env.render d).2 := by
  intro env ds
  induction ds with
  | nil =>
    intro cache _
    exact ⟨rfl, fun e he => absurd he (List.not_mem_nil _)⟩
  | cons d ds ih =>
    intro cache hok
    rcases generateImage_res_spec env d cache hok with ⟨p, hres⟩ | ⟨hfail, hres⟩
    · simp only [generateImages, hres]
      refine ⟨?_, ?_⟩
      · have := (ih ((generateImage env d cache).cache) hok).1
        simp only [List.length_cons]
        omega
      · intro e he
        rcases (ih ((generateImage env d cache).cache) hok).2 e he with ⟨d', hd', hh⟩
        exact ⟨d', List.mem_cons_of_mem _ hd', hh⟩
    · simp only [generateImages, hres]
      refine ⟨?_, ?_⟩
      · have := (ih ((generateImage env d cache).cache) hok).1
        simp only [List.length_cons]
        omega
      · intro e he
        rcases List.mem_cons.mp he with rfl | he
        · exact ⟨d, List.mem_cons_self _ _, hfail, rfl⟩
        · rcases (ih ((generateImage env d cache).cache) hok).2 e he with ⟨d', hd', hh⟩
          exact ⟨d', List.mem_cons_of_mem _ hd', hh⟩

/-- Witness for C7 (amended) at a concrete two-diagram batch. -/
theorem generateImages_error_shape_witness :
    (generateImages
        ⟨true, fun d => if d.content = "oops".toList
          then (false, "boom".toList) else (true, [])⟩
        [⟨"graph TD\nA-->B".toList, 1, 3, "t1".toList, none⟩,
          ⟨"oops".toList, 7, 8, "t2".toList, none⟩] []).images.length +
      (generateImages
        ⟨true, fun d => if d.content = "oops".toList
          then (false, "boom".toList) else (true, [])⟩
        [⟨"graph TD\nA-->B".toList, 1, 3, "t1".toList, none⟩,
          ⟨"oops".toList, 7, 8, "t2".toList, none⟩] []).errors.length = 2 :=
  (generateImages_error_shape_and_isolation _ _ _ rfl).1

/-- C7 counterexample: in a batch where the diagram at `start_line = 7`
fails with stderr `boom`, the recorded error string is exactly
`"Failed to generate image: boom"` — the digit `7` (the record's
`start_line`) appears nowhere in it — while the other diagram still renders
(one map entry), so the error is not tagged with the source line span the
claim requires. -/
theorem generateImages_error_not_line_tagged :
    (generateImages
        ⟨true, fun d => if d.content = "oops".toList
          then (false, "boom".toList) else (true, [])⟩
        [⟨"graph TD\nA-->B".toList, 1, 3, "t1".toList, none⟩,
          ⟨"oops".toList, 7, 8, "t2".toList, none⟩] []).errors =
      ["Failed to generate image: boom".toList] ∧
      ¬ ('7' ∈ "Failed to generate image: boom".toList) ∧
      (⟨"oops".toList, 7, 8, "t2".toList, none⟩ : MermaidDiagram).start_line = 7 ∧
      (generateImages
        ⟨true, fun d => if d.content = "oops".toList
          then (false, "boom".toList) else (true, [])⟩
        [⟨"graph TD\nA-->B".toList, 1, 3, "t1".toList, none⟩,
          ⟨"oops".toList, 7, 8, "t2".toList, none⟩] []).images.length = 1 := by
  decide

/-- C1 (code bug): `_cache_image` stores the rendered image under the file
name `key + ".png"`, but `_get_cached_image` probes the file named `key`
(no suffix), so a stored image is never found again: immediately after
`_cache_image` the lookup with the same key returns `None`, and a second
`generate_images` run over the same single-record batch and the cache left
by the first run invokes the external renderer again (1 invocation, not
0). -/
theorem cache_store_lookup_name_mismatch :
    getCachedImage
        (cacheImage ⟨"graph TD\nA-->B".toList, 1, 3, "t".toList, none⟩ []).2
        (getCacheKey ⟨"graph TD\nA-->B".toList, 1, 3, "t".toList, none⟩) =
      none ∧
      (generateImages ⟨true, fun _ => (true, [])⟩
        [⟨"graph TD\nA-->B".toList, 1, 3, "t".toList, none⟩] []).invocations
        = 1 ∧
      (generateImages ⟨true, fun _ => (true, [])⟩
        [⟨"graph TD\nA-->B".toList, 1, 3, "t".toList, none⟩]
        (generateImages ⟨true, fun _ => (true, [])⟩
          [⟨"graph TD\nA-->B".toList, 1, 3, "t".toList, none⟩] []).cache
        ).invocations = 1 := by
  decide

/-- C9 (code bug): in a cache-miss render of a diagram that has a
configuration, `_get_mmdc_args` creates a scratch config file
(`NamedTemporaryFile(delete=False)`), but no path of `generate_image`
unlinks it — on both the success and the failure path the config file is
among the created scratch artifacts and absent from the removed ones
(while the diagram body file is removed on both paths). -/
theorem config_scratch_file_leaked :
    Scratch.config ∈ (generateImage ⟨true, fun _ => (true, [])⟩
        ⟨"graph TD\nA-->B".toList, 1, 3, "t".toList,
          some [("theme".toList, JsonVal.str "forest".toList)]⟩ []).created ∧
      Scratch.config ∉ (generateImage ⟨true, fun _ => (true, [])⟩
        ⟨"graph TD\nA-->B".toList, 1, 3, "t".toList,
          some [("theme".toList, JsonVal.str "forest".toList)]⟩ []).removed ∧
      Scratch.config ∈ (generateImage ⟨true, fun _ => (false, "e".toList)⟩
        ⟨"graph TD\nA-->B".toList, 1, 3, "t".toList,
          some [("theme".toList, JsonVal.str "forest".toList)]⟩ []).created ∧
      Scratch.config ∉ (generateImage ⟨true, fun _ => (false, "e".toList)⟩
        ⟨"graph TD\nA-->B".toList, 1, 3, "t".toList,
          some [("theme".toList, JsonVal.str "forest".toList)]⟩ []).removed ∧
      Scratch.body ∈ (generateImage ⟨true, fun _ => (true, [])⟩
        ⟨"graph TD\nA-->B".toList, 1, 3, "t".toList,
          some [("theme".toList, JsonVal.str "forest".toList)]⟩ []).removed ∧
      Scratch.body ∈ (generateImage ⟨true, fun _ => (false, "e".toList)⟩
        ⟨"graph TD\nA-->B".toList, 1, 3, "t".toList,
          some [("theme".toList, JsonVal.str "forest".toList)]⟩ []).removed := by
  decide

/-- C2 (code bug): `_replace_diagrams_with_images` substitutes via Python's
`str.replace`, which replaces *every* occurrence of `original_text`.  For a
document holding the identical fenced diagram at lines 1-4 and lines 6-9,
with the two records mapped to the distinct paths `/p1.png` and `/p2.png`,
both occurrences come out as the reference to `/p2.png` (the record with the
larger `start_line`, processed first in the reverse-sorted order), and the
reference to `/p1.png` appears nowhere — instead of each occurrence being
replaced with its own record's image reference. -/
theorem duplicate_diagram_single_arbitrary_ref :
    extractDiagrams
        "```mermaid\ngraph TD\nA-->B\n```\nmid\n```mermaid\ngraph TD\nA-->B\n```".toList =
      [⟨"graph TD\nA-->B".toList, 1, 4,
          "```mermaid\ngraph TD\nA-->B\n```".toList, none⟩,
        ⟨"graph TD\nA-->B".toList, 6, 9,
          "```mermaid\ngraph TD\nA-->B\n```".toList, none⟩] ∧
      replaceDiagramsWithImages
        "```mermaid\ngraph TD\nA-->B\n```\nmid\n```mermaid\ngraph TD\nA-->B\n```".toList
        [(⟨"graph TD\nA-->B".toList, 1, 4,
            "```mermaid\ngraph TD\nA-->B\n```".toList, none⟩, "/p1.png".toList),
          (⟨"graph TD\nA-->B".toList, 6, 9,
            "```mermaid\ngraph TD\nA-->B\n```".toList, none⟩, "/p2.png".toList)] =
        "![Diagram](/p2.png)\nmid\n![Diagram](/p2.png)".toList ∧
      ¬ ("![Diagram](/p1.png)".toList <:+:
          replaceDiagramsWithImages
            "```mermaid\ngraph TD\nA-->B\n```\nmid\n```mermaid\ngraph TD\nA-->B\n```".toList
            [(⟨"graph TD\nA-->B".toList, 1, 4,
                "```mermaid\ngraph TD\nA-->B\n```".toList, none⟩, "/p1.png".toList),
              (⟨"graph TD\nA-->B".toList, 6, 9,
                "```mermaid\ngraph TD\nA-->B\n```".toList, none⟩,
                "/p2.png".toList)]) := by
  decide

/-- C3 (code bug): extract-then-rewrite does not leave non-diagram text
intact.  In the document
`"```mermaid\nQ\n```mermaid\nA\n``` tail ```mermaid\nA\n```"` extraction
yields spans `[0,16)` and `[35,51)`, so the bytes at `[16,35)` —
`"mermaid\nA\n``` tail "` — lie outside every record's `original_text` span.
With the identity image-map (each record mapped to a name derived from its
own line span), `str.replace` also rewrites the stray occurrence of the
second record's `original_text` that overlaps the first span at offset 13,
destroying those outside bytes: the rewritten text no longer contains the
segment `"mermaid\nA\n``` tail "` at all (nor anywhere else). -/
theorem rewrite_clobbers_non_diagram_text :
    (extractMatches
        "```mermaid\nQ\n```mermaid\nA\n``` tail ```mermaid\nA\n```".toList).map
        (fun m => (m.1, m.2.1)) = [(0, 16), (35, 51)] ∧
      extractDiagrams
        "```mermaid\nQ\n```mermaid\nA\n``` tail ```mermaid\nA\n```".toList =
        [⟨"Q".toList, 1, 3, "```mermaid\nQ\n```".toList, none⟩,
          ⟨"A".toList, 5, 7, "```mermaid\nA\n```".toList, none⟩] ∧
      ("```mermaid\nQ\n```mermaid\nA\n``` tail ```mermaid\nA\n```".toList.drop
          16).take 19 = "mermaid\nA\n``` tail ".toList ∧
      replaceDiagramsWithImages
        "```mermaid\nQ\n```mermaid\nA\n``` tail ```mermaid\nA\n```".toList
        [(⟨"Q".toList, 1, 3, "```mermaid\nQ\n```".toList, none⟩,
            "/img-1.png".toList),
          (⟨"A".toList, 5, 7, "```mermaid\nA\n```".toList, none⟩,
            "/img-5.png".toList)] =
        "```mermaid\nQ\n![Diagram](/img-5.png) tail ![Diagram](/img-5.png)".toList ∧
      ¬ ("mermaid\nA\n``` tail ".toList <:+:
          replaceDiagramsWithImages
            "```mermaid\nQ\n```mermaid\nA\n``` tail ```mermaid\nA\n```".toList
            [(⟨"Q".toList, 1, 3, "```mermaid\nQ\n```".toList, none⟩,
                "/img-1.png".toList),
              (⟨"A".toList, 5, 7, "```mermaid\nA\n```".toList, none⟩,
                "/img-5.png".toList)]) := by
  decide

end MermaidMD2PDF
